import Mathlib

/-!
Verification of the local semantic note-index core of the repository
(`index_notes`, `query_notes` and the shared `vector_store` global in
`src/main.py`, lines 334-399), shallowly embedded in Lean 4.

External collaborators (the filesystem `DirectoryLoader`, the
`HuggingFaceEmbeddings` backend, and the FAISS vector store) are modelled
at their interface boundary by an `Env` record of oracles: each fallible
library call is a function that either errors (an exception, caught by the
`except` block of the operation) or returns its value.  The FAISS
collaborators are modelled by their documented contract: on success,
`FAISS.from_documents docs embeddings` yields a store holding exactly
`docs`, and `store.similarity_search(query, k)` yields the first `k`
entries of the backend's full similarity ranking of the store's documents.

The shared mutable global `vector_store` (initially `None`) is modelled by
explicit state passing: each operation takes the current value of the
global and returns the message string it produces together with the new
value of the global.
-/

/-- A langchain `Document`: `page_content` plus a `source` entry of its
metadata mapping (absent when the loader recorded no source, hence
`Option`; `query_notes` reads it with `metadata.get('source', 'Unknown')`). -/
structure Doc where
  source : Option String
  pageContent : String
deriving DecidableEq, Repr

/-- A FAISS vector store, at its interface boundary: the (ordered) list of
documents it was built from.  Embedding vectors are internal to the FAISS
collaborator and never observed by the code under verification except
through `similarity_search`, which the `Env.ranked` oracle models. -/
structure Store where
  docs : List Doc
deriving DecidableEq, Repr

/-- The environment of external collaborators consumed by the two
operations, each fallible call modelled as an oracle:

* `dirExists d` — `os.path.exists(d)` (line 351);
* `loadResult d g` — `DirectoryLoader(d, glob=g, loader_cls=TextLoader).load()`
  (lines 355-361): the loaded documents, or the message of the exception it
  raised (a read error);
* `embedFails docs` — `HuggingFaceEmbeddings(...)` construction plus
  `FAISS.from_documents(docs, embeddings)` (lines 368-369): `some e` when
  that pipeline raises an exception with message `e`, `none` when it
  succeeds (in which case the resulting store holds exactly `docs`, the
  documented `from_documents` contract);
* `searchFails store q` — `some e` when
  `store.similarity_search(q, k=3)` (line 389) raises with message `e`;
* `ranked store q` — when the search succeeds, the backend's full
  similarity ranking of `store`'s documents for query `q`, of which
  `similarity_search` returns the first `k`. -/
structure Env where
  dirExists : String → Bool
  loadResult : String → String → Except String (List Doc)
  embedFails : List Doc → Option String
  searchFails : Store → String → Option String
  ranked : Store → String → List Doc

/-- A single-quote character as a string (`query_notes` wraps the query in
single quotes in its output header). -/
def sgq : String := "\x27"

/-- `FAISS.from_documents(docs, embeddings)` together with the
`HuggingFaceEmbeddings` construction (src/main.py lines 368-369), at the
collaborator's interface: fails when the embedding/build oracle fails,
otherwise returns the store holding exactly the given documents. -/
def fromDocuments (env : Env) (docs : List Doc) : Except String Store :=
  match env.embedFails docs with
  | some e => Except.error e
  | none => Except.ok (Store.mk docs)

/-- `store.similarity_search(query, k)` (src/main.py line 389), at the
collaborator's interface: fails when the search oracle fails, otherwise
returns the top `k` of the backend's full ranking. -/
def similaritySearch (env : Env) (store : Store) (query : String) (k : Nat) :
    Except String (List Doc) :=
  match env.searchFails store query with
  | some e => Except.error e
  | none => Except.ok ((env.ranked store query).take k)

/-- The document-loading phase of `index_notes` (src/main.py lines
354-361): load with glob `**/*.md`; if that yields zero documents, load
again with glob `**/*.txt`.  An exception from either load escapes to the
operation's `except` block, modelled by `Except.error`. -/
def loadPhase (env : Env) (directoryPath : String) : Except String (List Doc) :=
  match env.loadResult directoryPath "**/*.md" with
  | Except.error e => Except.error e
  | Except.ok docs =>
    if docs.isEmpty then env.loadResult directoryPath "**/*.txt"
    else Except.ok docs

/-- `index_notes(directory_path)` (src/main.py lines 338-374).  Takes the
current value of the shared `vector_store` global; returns the message
string returned to the caller and the new value of the global.  Mirrors
the source line by line: the existence check (351-352), the load phase
with `.txt` fallback (354-361), the empty-corpus check (363-364), the
embed-and-build step (368-369) whose success assigns the global (369), the
success message (371), and the `except` block turning any exception into a
`Failed to index notes: ...` return (373-374). -/
def indexNotes (env : Env) (directoryPath : String) (vectorStore : Option Store) :
    String × Option Store :=
  if env.dirExists directoryPath = false then
    ("Directory not found: " ++ directoryPath, vectorStore)
  else
    match loadPhase env directoryPath with
    | Except.error e => ("Failed to index notes: " ++ e, vectorStore)
    | Except.ok docs =>
      if docs.isEmpty then ("No .md or .txt files found to index.", vectorStore)
      else
        match fromDocuments env docs with
        | Except.error e => ("Failed to index notes: " ++ e, vectorStore)
        | Except.ok store =>
          ("Successfully indexed " ++ toString docs.length ++ " documents from "
              ++ directoryPath ++ ".", some store)

/-- The snippet preview of one result document (src/main.py line 394):
`doc.page_content[:500].replace('\n', ' ')` — the first 500 characters,
with newlines replaced by spaces. -/
def previewContent (s : String) : String :=
  String.mk ((s.toList.take 500).map (fun c => if c = '\n' then ' ' else c))

/-- The formatted block `query_notes` appends for one result document
(src/main.py lines 393-395): the `source` metadata entry (or `Unknown`),
the snippet preview, and an ellipsis marker appended unconditionally. -/
def renderBlock (doc : Doc) : String :=
  "--- Source: " ++ doc.source.getD "Unknown" ++ " ---\n"
    ++ previewContent doc.pageContent ++ "...\n\n"

/-- `query_notes(query)` (src/main.py lines 376-399).  Takes the current
value of the shared `vector_store` global; returns the message string and
the (unchanged) value of the global.  Mirrors the source: the `None` guard
(384-385), the `similarity_search(query, k=3)` call (389), the formatting
loop (391-395), and the `except` block turning any exception into a
`Failed to query notes: ...` return (398-399). -/
def queryNotes (env : Env) (query : String) (vectorStore : Option Store) :
    String × Option Store :=
  match vectorStore with
  | none => ("No notes indexed yet. Please call index_notes(directory_path) first.",
      none)
  | some store =>
    match similaritySearch env store query 3 with
    | Except.error e => ("Failed to query notes: " ++ e, some store)
    | Except.ok results =>
      (results.foldl (fun acc doc => acc ++ renderBlock doc)
        ("Results for " ++ sgq ++ query ++ sgq ++ ":\n\n"), some store)

/-- The values taken by the shared `vector_store` global at each
interleaving point during one `index_notes` call, in program order: after
the existence check, after the load phase, after the embed-and-build step,
and (on success) after the single assignment at src/main.py line 369.
That assignment — of the fully constructed store returned by
`FAISS.from_documents` — is the only write to the global anywhere in the
operation, and a reference assignment is atomic in the host runtime, so a
concurrent reader observes exactly one element of this list. -/
def indexNotesTrace (env : Env) (directoryPath : String) (vectorStore : Option Store) :
    List (Option Store) :=
  if env.dirExists directoryPath = false then
    [vectorStore]
  else
    match loadPhase env directoryPath with
    | Except.error _ => [vectorStore, vectorStore]
    | Except.ok docs =>
      if docs.isEmpty then [vectorStore, vectorStore]
      else
        match fromDocuments env docs with
        | Except.error _ => [vectorStore, vectorStore, vectorStore]
        | Except.ok store => [vectorStore, vectorStore, vectorStore, some store]

/-! ## Concrete instances used by witnesses and counterexamples -/

/-- A concrete loaded document with a short (5-character) content. -/
def docA : Doc := { source := some "a.md", pageContent := "hello" }

/-- A concrete one-document store. -/
def storeA : Store := { docs := [docA] }

/-- An environment in which every collaborator succeeds and the similarity
ranking lists the store's documents in insertion order. -/
def envQ : Env where
  dirExists := fun _ => true
  loadResult := fun _ g => if g = "**/*.md" then Except.ok [docA] else Except.ok []
  embedFails := fun _ => none
  searchFails := fun _ _ => none
  ranked := fun store _ => store.docs

/-- An environment whose similarity search raises an exception. -/
def envBoom : Env where
  dirExists := fun _ => true
  loadResult := fun _ _ => Except.ok [docA]
  embedFails := fun _ => none
  searchFails := fun _ _ => some "boom"
  ranked := fun store _ => store.docs

/-- An environment in which no directory exists. -/
def envMissing : Env where
  dirExists := fun _ => false
  loadResult := fun _ _ => Except.ok [docA]
  embedFails := fun _ => none
  searchFails := fun _ _ => none
  ranked := fun store _ => store.docs

/-- An environment whose document loader raises a read error. -/
def envLoadErr : Env where
  dirExists := fun _ => true
  loadResult := fun _ _ => Except.error "disk error"
  embedFails := fun _ => none
  searchFails := fun _ _ => none
  ranked := fun store _ => store.docs

/-- An environment in which both globs match zero files. -/
def envEmpty : Env where
  dirExists := fun _ => true
  loadResult := fun _ _ => Except.ok []
  embedFails := fun _ => none
  searchFails := fun _ _ => none
  ranked := fun store _ => store.docs

/-- An environment whose embedding backend raises. -/
def envEmbedErr : Env where
  dirExists := fun _ => true
  loadResult := fun _ g => if g = "**/*.md" then Except.ok [docA] else Except.ok []
  embedFails := fun _ => some "model down"
  searchFails := fun _ _ => none
  ranked := fun store _ => store.docs

/-- The single document of directory `d1`. -/
def docD1 : Doc := { source := some "d1/a.md", pageContent := "alpha" }

/-- The single document of directory `d2`. -/
def docD2 : Doc := { source := some "d2/b.md", pageContent := "beta" }

/-- An environment with two directories, `d1` holding `docD1` and every
other directory holding `docD2`; all collaborators succeed. -/
def envBuild : Env where
  dirExists := fun _ => true
  loadResult := fun d g =>
    if g = "**/*.md" then
      (if d = "d1" then Except.ok [docD1] else Except.ok [docD2])
    else Except.ok []
  embedFails := fun _ => none
  searchFails := fun _ _ => none
  ranked := fun store _ => store.docs

/-- Five distinct one-word documents, for exercising result counts. -/
def docN1 : Doc := { source := some "1.md", pageContent := "one" }

/-- Second of the five documents. -/
def docN2 : Doc := { source := some "2.md", pageContent := "two" }

/-- Third of the five documents. -/
def docN3 : Doc := { source := some "3.md", pageContent := "three" }

/-- Fourth of the five documents. -/
def docN4 : Doc := { source := some "4.md", pageContent := "four" }

/-- Fifth of the five documents. -/
def docN5 : Doc := { source := some "5.md", pageContent := "five" }

/-- A concrete five-document store. -/
def storeB : Store := { docs := [docN1, docN2, docN3, docN4, docN5] }

/-! ## Claims -/

/-- C1: every `index_notes` invocation either leaves the shared
`vector_store` exactly as it was (all failure paths: missing directory,
load error, zero matching files, embedding/build error), or is a full
success: the load phase produced a non-empty document list, the
embed-and-build step succeeded, the store was replaced wholesale by the
newly built store and the success message was returned.  In particular a
failed build never half-updates the shared index: `Empty` stays absent and
a prior index stays the queryable index. -/
theorem C1_failed_build_preserves_prior_index (env : Env) (dir : String)
    (st : Option Store) :
    (indexNotes env dir st).2 = st ∨
      ∃ docs, loadPhase env dir = Except.ok docs ∧ docs.isEmpty = false ∧
        fromDocuments env docs = Except.ok (Store.mk docs) ∧
        indexNotes env dir st =
          ("Successfully indexed " ++ toString docs.length ++ " documents from "
              ++ dir ++ ".", some (Store.mk docs)) := by
  by_cases hdir : env.dirExists dir = false
  · left; simp [indexNotes, hdir]
  · rcases hl : loadPhase env dir with e | docs
    · left; simp [indexNotes, hdir, hl]
    · by_cases he : docs.isEmpty
      · left; simp [indexNotes, hdir, hl, he]
      · rcases hf : env.embedFails docs with _ | e
        · right
          refine ⟨docs, by simp [hl], by simpa using he, ?_, ?_⟩
          · simp [fromDocuments, hf]
          · simp [indexNotes, hdir, hl, he, fromDocuments, hf]
        · left; simp [indexNotes, hdir, hl, he, fromDocuments, hf]

/-- C2: a query issued while the shared `vector_store` is still in its
initial `None` state returns the not-indexed message with the corrective
hint to call `index_notes` first, and leaves the state `None`.  The result
is a constant independent of the environment `env`, so no collaborator —
in particular no store search — is consulted. -/
theorem C2_query_before_first_build_not_indexed (env : Env) (q : String) :
    queryNotes env q none =
      ("No notes indexed yet. Please call index_notes(directory_path) first.",
        none) := rfl

/-- C3: after a successful build over `d1` followed by a successful build
over `d2`, the shared store holds exactly the documents loaded from `d2`
(`Store.mk docs2`): nothing from the `d1` build survives — a rebuild
replaces the index wholesale, never merges. -/
theorem C3_rebuild_replaces_not_merges (env : Env) (d1 d2 : String)
    (st : Option Store) (docs1 docs2 : List Doc)
    (_g1 : env.dirExists d1 = true) (_g2 : loadPhase env d1 = Except.ok docs1)
    (_g3 : docs1.isEmpty = false) (_g4 : env.embedFails docs1 = none)
    (h1 : env.dirExists d2 = true) (h2 : loadPhase env d2 = Except.ok docs2)
    (h3 : docs2.isEmpty = false) (h4 : env.embedFails docs2 = none) :
    (indexNotes env d2 (indexNotes env d1 st).2).2 = some (Store.mk docs2) := by
  simp [indexNotes, h1, h2, h3, fromDocuments, h4]

/-- Witness for C3: in `envBuild`, building `d1` (one document `docD1`)
then `d2` (one document `docD2`) yields a store holding only `docD2`. -/
theorem C3_witness :
    (indexNotes envBuild "d2" (indexNotes envBuild "d1" none).2).2 =
      some (Store.mk [docD2]) :=
  C3_rebuild_replaces_not_merges envBuild "d1" "d2" none [docD1] [docD2]
    rfl rfl (by decide) rfl rfl rfl (by decide) rfl

/-- C4: the extension-fallback policy of `index_notes`.  (i) When the
`**/*.md` load yields a non-empty list, the load phase returns exactly
that list — the `.txt` glob is never consulted and nothing is merged in.
(ii) When the `**/*.md` load yields zero documents, the load phase is
exactly the `**/*.txt` load.  (iii) The documents the load phase produced
are exactly the contents of the store a successful build publishes. -/
theorem C4_md_preferred_txt_fallback (env : Env) (dir : String)
    (st : Option Store) :
    (∀ l, env.loadResult dir "**/*.md" = Except.ok l → l.isEmpty = false →
        loadPhase env dir = Except.ok l) ∧
      (env.loadResult dir "**/*.md" = Except.ok [] →
        loadPhase env dir = env.loadResult dir "**/*.txt") ∧
      (∀ l, loadPhase env dir = Except.ok l → l.isEmpty = false →
        env.embedFails l = none → env.dirExists dir = true →
        (indexNotes env dir st).2 = some (Store.mk l)) := by
  refine ⟨?_, ?_, ?_⟩
  · intro l hmd hne
    simp [loadPhase, hmd, hne]
  · intro hmd
    simp [loadPhase, hmd]
  · intro l hl hne hemb hdir
    simp [indexNotes, hdir, hl, hne, fromDocuments, hemb]

/-- Witness for C4: in `envBuild` the `.md` documents of `d1` are used
directly and published; in `envEmpty` (zero `.md` files) the load phase
equals the `.txt` load. -/
theorem C4_witness :
    loadPhase envBuild "d1" = Except.ok [docD1] ∧
      loadPhase envEmpty "n" = envEmpty.loadResult "n" "**/*.txt" ∧
      (indexNotes envBuild "d1" none).2 = some (Store.mk [docD1]) :=
  ⟨(C4_md_preferred_txt_fallback envBuild "d1" none).1 [docD1] rfl
      (by decide),
    (C4_md_preferred_txt_fallback envEmpty "n" none).2.1 rfl,
    (C4_md_preferred_txt_fallback envBuild "d1" none).2.2 [docD1] rfl
      (by decide) rfl rfl⟩

/-- C5 counterexample: `query_notes` performs no empty-text validation.
With the one-document store `storeA` present, the empty query is passed to
the store search and a normal results message comes back (first conjunct,
against `envQ` whose search succeeds), and the search is genuinely
attempted: against `envBoom`, whose search raises, the very same empty
query returns the search failure message (second conjunct).  This refutes
the claim that an empty query fails immediately with an invalid-query
error and that no store access is attempted. -/
theorem C5_counterexample :
    queryNotes envQ "" (some storeA) =
      ("Results for " ++ sgq ++ sgq
          ++ ":\n\n--- Source: a.md ---\nhello...\n\n", some storeA) ∧
      queryNotes envBoom "" (some storeA) =
        ("Failed to query notes: boom", some storeA) := by
  constructor
  · decide
  · decide

/-- C5 amended: an empty query text receives no special validation.  When
an index is present, the empty text is handed to the store search like any
other query: if the search raises, its error is returned; if it succeeds,
its top-3 ranking is formatted and returned. -/
theorem C5_amended_empty_query_reaches_store (env : Env) (store : Store) :
    (∀ e, env.searchFails store "" = some e →
        queryNotes env "" (some store) =
          ("Failed to query notes: " ++ e, some store)) ∧
      (env.searchFails store "" = none →
        queryNotes env "" (some store) =
          (((env.ranked store "").take 3).foldl
              (fun acc d => acc ++ renderBlock d)
              ("Results for " ++ sgq ++ "" ++ sgq ++ ":\n\n"), some store)) := by
  constructor
  · intro e he
    simp [queryNotes, similaritySearch, he]
  · intro hn
    simp [queryNotes, similaritySearch, hn]

/-- Witness for C5 amended: both branches at concrete inputs — the failing
search of `envBoom` and the succeeding search of `envQ`. -/
theorem C5_amended_witness :
    queryNotes envBoom "" (some storeA) =
        ("Failed to query notes: boom", some storeA) ∧
      queryNotes envQ "" (some storeA) =
        (((envQ.ranked storeA "").take 3).foldl
            (fun acc d => acc ++ renderBlock d)
            ("Results for " ++ sgq ++ "" ++ sgq ++ ":\n\n"), some storeA) :=
  ⟨(C5_amended_empty_query_reaches_store envBoom storeA).1 "boom" rfl,
    (C5_amended_empty_query_reaches_store envQ storeA).2 rfl⟩

/-- C6 counterexample: `docA`'s text is 5 characters long — nothing is
truncated — yet its rendered block in the query output still carries the
ellipsis marker (`hello...`).  This refutes the claim that the ellipsis
marker is attached only when the text was actually truncated: line 395 of
src/main.py appends `...` unconditionally. -/
theorem C6_counterexample :
    docA.pageContent.length = 5 ∧
      queryNotes envQ "q" (some storeA) =
        ("Results for " ++ sgq ++ "q" ++ sgq
            ++ ":\n\n--- Source: a.md ---\nhello...\n\n", some storeA) := by
  constructor
  · decide
  · decide

/-- C6 amended: each rendered result block shows the first 500 characters
of the chunk's text (with newlines replaced by spaces; the full text when
shorter than 500), followed by an ellipsis marker that is attached
unconditionally — whether or not truncation occurred.  The first conjunct
bounds the preview: its length is exactly `min 500 (text length)`. -/
theorem C6_amended_truncation_unconditional_ellipsis (d : Doc) :
    (previewContent d.pageContent).length = min 500 d.pageContent.length ∧
      renderBlock d = "--- Source: " ++ d.source.getD "Unknown" ++ " ---\n"
        ++ previewContent d.pageContent ++ "...\n\n" := by
  constructor
  · have h1 : (previewContent d.pageContent).length
        = ((d.pageContent.toList.take 500).map
            (fun c => if c = '\n' then ' ' else c)).length := rfl
    rw [h1, List.length_map, List.length_take,
      show d.pageContent.toList.length = d.pageContent.length from
        String.length_data d.pageContent]
  · rfl

/-- C7 counterexample: `query_notes` takes no result-count parameter — its
only input is the query text (src/main.py line 377) and `k=3` is hardcoded
at line 389.  Against the five-document store `storeB` (with `envQ`
ranking all five documents), the query output renders exactly the top 3
blocks: no invocation can obtain a different result count, refuting the
claim that a caller may supply a different `k`. -/
theorem C7_counterexample :
    storeB.docs.length = 5 ∧
      queryNotes envQ "x" (some storeB) =
        ("Results for " ++ sgq ++ "x" ++ sgq ++ ":\n\n"
            ++ "--- Source: 1.md ---\none...\n\n"
            ++ "--- Source: 2.md ---\ntwo...\n\n"
            ++ "--- Source: 3.md ---\nthree...\n\n", some storeB) := by
  constructor
  · decide
  · decide

/-- C7 amended: the query operation takes no result-count parameter; every
invocation searches the store with the fixed `k = 3` and therefore renders
at most 3 results (exactly `min 3 n` of the `n` ranked documents). -/
theorem C7_amended_fixed_k3 (env : Env) (q : String) (store : Store)
    (h : env.searchFails store q = none) :
    similaritySearch env store q 3 = Except.ok ((env.ranked store q).take 3) ∧
      ((env.ranked store q).take 3).length = min 3 (env.ranked store q).length ∧
      queryNotes env q (some store) =
        (((env.ranked store q).take 3).foldl (fun acc d => acc ++ renderBlock d)
          ("Results for " ++ sgq ++ q ++ sgq ++ ":\n\n"), some store) := by
  refine ⟨?_, List.length_take _ _, ?_⟩
  · simp [similaritySearch, h]
  · simp [queryNotes, similaritySearch, h]

/-- Witness for C7 amended: instantiated at the five-document store
`storeB` under `envQ`, whose search succeeds. -/
theorem C7_amended_witness :
    similaritySearch envQ storeB "x" 3
        = Except.ok ((envQ.ranked storeB "x").take 3) ∧
      ((envQ.ranked storeB "x").take 3).length
        = min 3 (envQ.ranked storeB "x").length ∧
      queryNotes envQ "x" (some storeB) =
        (((envQ.ranked storeB "x").take 3).foldl
            (fun acc d => acc ++ renderBlock d)
            ("Results for " ++ sgq ++ "x" ++ sgq ++ ":\n\n"), some storeB) :=
  C7_amended_fixed_k3 envQ "x" storeB rfl

/-- C8: every error arising inside either operation is recovered at the
operation boundary and returned as a result value, with the shared store
untouched: a missing directory, a loader exception, an empty corpus, an
embedding/build exception, a search exception, and the empty-state guard
each produce a returned message string — no path propagates an exception
out of the operation (both operations wrap their bodies in
`try`/`except Exception`, src/main.py lines 350-374 and 387-399). -/
theorem C8_errors_returned_not_raised (env : Env) (dir : String)
    (st : Option Store) (q : String) (store : Store) :
    (env.dirExists dir = false →
        indexNotes env dir st = ("Directory not found: " ++ dir, st)) ∧
      (∀ e, env.dirExists dir = true → loadPhase env dir = Except.error e →
        indexNotes env dir st = ("Failed to index notes: " ++ e, st)) ∧
      (env.dirExists dir = true → loadPhase env dir = Except.ok [] →
        indexNotes env dir st = ("No .md or .txt files found to index.", st)) ∧
      (∀ docs e, env.dirExists dir = true → loadPhase env dir = Except.ok docs →
        docs.isEmpty = false → env.embedFails docs = some e →
        indexNotes env dir st = ("Failed to index notes: " ++ e, st)) ∧
      (∀ e, env.searchFails store q = some e →
        queryNotes env q (some store) =
          ("Failed to query notes: " ++ e, some store)) ∧
      queryNotes env q none =
        ("No notes indexed yet. Please call index_notes(directory_path) first.",
          none) := by
  refine ⟨?_, ?_, ?_, ?_, ?_, rfl⟩
  · intro h
    simp [indexNotes, h]
  · intro e hdir hl
    simp [indexNotes, hdir, hl]
  · intro hdir hl
    simp [indexNotes, hdir, hl]
  · intro docs e hdir hl hne hemb
    simp [indexNotes, hdir, hl, hne, fromDocuments, hemb]
  · intro e he
    simp [queryNotes, similaritySearch, he]

/-- Witness for C8: each error path exercised at a concrete input — a
missing directory, a raising loader, an empty corpus, a raising embedding
backend, a raising search, and a query on the initial `None` state. -/
theorem C8_witness :
    indexNotes envMissing "nodir" (some storeA) =
        ("Directory not found: nodir", some storeA) ∧
      indexNotes envLoadErr "dir" (some storeA) =
        ("Failed to index notes: disk error", some storeA) ∧
      indexNotes envEmpty "dir" (some storeA) =
        ("No .md or .txt files found to index.", some storeA) ∧
      indexNotes envEmbedErr "dir" (some storeA) =
        ("Failed to index notes: model down", some storeA) ∧
      queryNotes envBoom "q" (some storeA) =
        ("Failed to query notes: boom", some storeA) ∧
      queryNotes envBoom "q" none =
        ("No notes indexed yet. Please call index_notes(directory_path) first.",
          none) :=
  ⟨(C8_errors_returned_not_raised envMissing "nodir" (some storeA) "q" storeA).1
      rfl,
    (C8_errors_returned_not_raised envLoadErr "dir" (some storeA) "q" storeA).2.1
      "disk error" rfl rfl,
    (C8_errors_returned_not_raised envEmpty "dir" (some storeA) "q" storeA).2.2.1
      rfl rfl,
    (C8_errors_returned_not_raised envEmbedErr "dir" (some storeA) "q"
        storeA).2.2.2.1 [docA] "model down" rfl rfl (by decide) rfl,
    (C8_errors_returned_not_raised envBoom "dir" (some storeA) "q"
        storeA).2.2.2.2.1 "boom" rfl,
    (C8_errors_returned_not_raised envBoom "dir" (some storeA) "q"
        storeA).2.2.2.2.2⟩

/-- C9: atomic publish.  `indexNotesTrace` records the value of the shared
`vector_store` global at every interleaving point of an `index_notes` call
(the new store is built entirely off to the side; the single assignment at
src/main.py line 369 — an atomic reference swap in the host runtime — is
the only write).  Every value a concurrent query can observe is either the
complete pre-rebuild state or the complete post-rebuild state, never a
mixture; and the last observed value is the call's final state. -/
theorem C9_atomic_publish (env : Env) (dir : String) (st : Option Store) :
    (∀ v ∈ indexNotesTrace env dir st,
        v = st ∨ v = (indexNotes env dir st).2) ∧
      (indexNotesTrace env dir st).getLast? = some (indexNotes env dir st).2 := by
  by_cases hdir : env.dirExists dir = false
  · simp [indexNotesTrace, indexNotes, hdir]
  · rcases hl : loadPhase env dir with e | docs
    · simp [indexNotesTrace, indexNotes, hdir, hl]
    · by_cases he : docs.isEmpty
      · simp [indexNotesTrace, indexNotes, hdir, hl, he]
      · rcases hf : fromDocuments env docs with e | store
        · simp [indexNotesTrace, indexNotes, hdir, hl, he, hf]
        · simp [indexNotesTrace, indexNotes, hdir, hl, he, hf]

/-- Witness for C9: during the successful build of `d2` in `envBuild`
starting from the initial `None` state, the published value
`some (Store.mk [docD2])` — an element of the trace — is the complete
post-rebuild state. -/
theorem C9_witness :
    (some (Store.mk [docD2]) = (none : Option Store) ∨
        some (Store.mk [docD2]) = (indexNotes envBuild "d2" none).2) ∧
      (indexNotesTrace envBuild "d2" none).getLast? =
        some (indexNotes envBuild "d2" none).2 :=
  ⟨(C9_atomic_publish envBuild "d2" none).1 (some (Store.mk [docD2]))
      (by decide),
    (C9_atomic_publish envBuild "d2" none).2⟩

/-- C10: the query operation is read-only with respect to the shared
index: for every environment, query text and prior state — whether the
call fails the empty-state guard, fails in the search, or succeeds — the
value of the shared `vector_store` global after the call equals its value
before (`query_notes` declares `global vector_store` but never assigns
it). -/
theorem C10_query_leaves_shared_store_unchanged (env : Env) (q : String)
    (st : Option Store) :
    (queryNotes env q st).2 = st := by
  cases st with
  | none => rfl
  | some store =>
    rcases h : similaritySearch env store q 3 with e | results <;>
      simp [queryNotes, h]
